import Mathlib

/-!
Shallow embedding of the WeComRobotMCP repository (an MCP server exposing
three WeCom-robot tools over line-delimited JSON-RPC) and verification of
the frozen claims about it.

Source files embedded:
- `src/wecom-client.js` : the `WeComClient` HTTP wrapper and `WeComError`
- `src/tools.js`        : the tool definitions and `ToolHandler`
- `index.js` (unnamed part_000) : the `MCPServer` JSON-RPC router

External collaborators (axios HTTP transport, the file-system read
primitive, URL parsing, crypto md5 / base64) are modelled as an explicit
environment record of functions; JSON (de)serialization by the JS `JSON`
library is modelled by working directly on a JSON value AST.
-/

/-- A JSON value, as produced by `JSON.parse` / consumed by
`JSON.stringify`.  `null` also stands for the JS `undefined` (the two are
indistinguishable for every check this code performs: both are falsy and
non-strings). -/
inductive Json where
  | null
  | bool (b : Bool)
  | num (n : Int)
  | str (s : String)
  | arr (elems : List Json)
  | obj (fields : List (String × Json))

mutual
/-- Structural equality of JSON values (`===`-style deep comparison). -/
def Json.beq : Json → Json → Bool
  | .null, .null => true
  | .bool a, .bool b => a == b
  | .num a, .num b => a == b
  | .str a, .str b => a == b
  | .arr xs, .arr ys => beqElems xs ys
  | .obj xs, .obj ys => beqFields xs ys
  | _, _ => false

def beqElems : List Json → List Json → Bool
  | [], [] => true
  | x :: xs, y :: ys => Json.beq x y && beqElems xs ys
  | _, _ => false

def beqFields : List (String × Json) → List (String × Json) → Bool
  | [], [] => true
  | (k, v) :: xs, (k', v') :: ys => k == k' && Json.beq v v' && beqFields xs ys
  | _, _ => false
end

instance : BEq Json := ⟨Json.beq⟩

/-- JS truthiness test restricted to JSON values (`!v` in the source).
Objects and arrays (even empty ones) are truthy in JS. -/
def Json.falsy : Json → Bool
  | .null => true
  | .bool b => !b
  | .num n => n == 0
  | .str s => s == ""
  | .arr _ => false
  | .obj _ => false

/-- `typeof v === 'string'`. -/
def Json.isStr : Json → Bool
  | .str _ => true
  | _ => false

/-- JS strict equality `v === s` against a string literal. -/
def Json.eqStr (j : Json) (s : String) : Bool :=
  match j with
  | .str s' => s' == s
  | _ => false

/-- JS strict equality `v === n` against a number literal. -/
def Json.eqNum (j : Json) (n : Int) : Bool :=
  match j with
  | .num m => m == n
  | _ => false

theorem Json.eqStr_iff {j : Json} {s : String} : j.eqStr s = true ↔ j = Json.str s := by
  cases j <;> simp [Json.eqStr]

theorem Json.eqNum_iff {j : Json} {n : Int} : j.eqNum n = true ↔ j = Json.num n := by
  cases j <;> simp [Json.eqNum]

/-- JS property access `o.k`: `undefined` (here `null`) when the key is
absent or the value is not an object. -/
def jsField (j : Json) (k : String) : Json :=
  match j with
  | .obj fs => go fs
  | _ => .null
where
  go : List (String × Json) → Json
    | [] => .null
    | (k', v) :: rest => if k' == k then v else go rest

mutual
/-- The pair `k : v` occurs somewhere inside the JSON value (at any
nesting depth). -/
def Json.containsKV : Json → String → Json → Bool
  | .obj fs, k, v => containsKVFields fs k v
  | .arr xs, k, v => containsKVElems xs k v
  | _, _, _ => false

def containsKVFields : List (String × Json) → String → Json → Bool
  | [], _, _ => false
  | (k', v') :: rest, k, v =>
    (k' == k && v' == v) || Json.containsKV v' k v || containsKVFields rest k v

def containsKVElems : List Json → String → Json → Bool
  | [], _, _ => false
  | x :: rest, k, v => Json.containsKV x k v || containsKVElems rest k v
end

example : (Json.str "").falsy = true := by decide
example : jsField (Json.obj [("a", Json.num 1)]) "a" = Json.num 1 := rfl
example : Json.containsKV
    (Json.obj [("data", Json.obj [("errcode", Json.num 0)])]) "errcode" (Json.num 0) = true := rfl
example : (Json.str "1.0" ≠ Json.str "2.0") := by simp

/-- Rough model of JS string coercion `String(v)` (used by `Error(message)`
and template literals when handed a non-string).  Claims never depend on
the non-string cases. -/
def jsShow : Json → String
  | .null => "undefined"
  | .bool true => "true"
  | .bool false => "false"
  | .num n => toString n
  | .str s => s
  | .arr _ => ""
  | .obj _ => "[object Object]"

/-- The spec's error taxonomy (section 7), assigned per throw site of the
source: validation throws are `invalidInput`, a missing local file
(`ENOENT`) is `notFound`, a non-zero remote `errcode` or a transport-level
failure is `remoteError`. -/
inductive ErrKind where
  | invalidInput
  | notFound
  | remoteError
deriving DecidableEq

/-- Embedding of `WeComError` (src/wecom-client.js).  `code` and `data`
are JS values exactly as the constructor receives them; `message` is a
string because `Error(message)` string-coerces its argument.  The `kind`
field is the spec-taxonomy tag of the throw site (it has no counterpart
in the JS object, which distinguishes errors only by code/message). -/
structure WCError where
  kind : ErrKind
  code : Json
  message : String
  data : Json := Json.obj []

/-- One outbound HTTP request, as observed at the axios boundary. -/
inductive NetCall where
  | send (key : String) (msgType : String) (content : Json)
  | upload (key : String) (ty : Json) (bytes : List Nat) (filename : String)
      (contentType : String)
  | fetch (url : String)

/-- Outcome of an axios POST to the `/send` endpoint: an HTTP 200 body, a
non-2xx response (`error.response` in the source), or a transport error. -/
inductive HttpResp where
  | ok (body : Json)
  | httpErr (status : Int) (statusText : String) (body : Json)
  | netErr (msg : String)

/-- The external world: file system, remote webhook endpoints, URL
validity, and the crypto/base64 primitives.  All are out-of-scope
collaborators per the spec; each claim constrains only the slice it
needs. -/
structure Env where
  /-- `createReadStream`/full read: `none` models the `ENOENT` rejection. -/
  fs : String → Option (List Nat)
  /-- axios POST `/send?key=…` with `{msgtype, [msgtype]: content}`. -/
  send : String → String → Json → HttpResp
  /-- axios POST `/upload_media?key=…&type=…`: 200 body or a failure
  message (any axios error is re-wrapped generically by the source). -/
  upload : String → Json → List Nat → String → Except String Json
  /-- axios GET of an image URL (`validateStatus` restricts to 200):
  the downloaded bytes or a failure message. -/
  fetch : String → Except String (List Nat)
  /-- `new URL(u)` succeeds. -/
  isURL : String → Bool
  /-- `createHash('md5')…digest('hex')`. -/
  md5hex : List Nat → String
  /-- `buffer.toString('base64')`. -/
  base64 : List Nat → String

/-- Effectful computation of the client/dispatcher layer: the list of
HTTP requests issued (in order) together with the JS outcome — a normal
return or a thrown `WeComError`. -/
def M (α : Type) : Type := List NetCall × Except WCError α

/-- JS `throw e`. -/
def M.throw (e : WCError) : M α := ([], Except.error e)

def M.pure (a : α) : M α := ([], Except.ok a)

/-- Sequencing: calls made before a throw stay made. -/
def M.bind (m : M α) (f : α → M β) : M β :=
  match m with
  | (t, Except.error e) => (t, Except.error e)
  | (t, Except.ok a) =>
    match f a with
    | (t', r) => (t ++ t', r)

instance : Monad M where
  pure := M.pure
  bind := M.bind

/-- JS `try { m } catch (e) { h e }` (every throw in this code is a
`WeComError` or is re-wrapped into one at the site that observes it). -/
def M.tryCatch (m : M α) (h : WCError → M α) : M α :=
  match m with
  | (t, Except.ok a) => (t, Except.ok a)
  | (t, Except.error e) =>
    match h e with
    | (t', r) => (t ++ t', r)


/-! ## Embedding of `src/wecom-client.js` (`WeComClient`)

A constructed client is represented by its validated `webhookKey` string;
each method additionally takes the `Env` of external collaborators.  The
named error values below are the `WeComError`s thrown at each site, with
`kind` the spec-taxonomy tag of that site. -/

/-- `new WeComClient(key)` with a falsy or non-string key. -/
def clientKeyError : WCError :=
  { kind := .invalidInput, code := Json.num (-1),
    message := "webhookKey 是必需的字符串参数" }

/-- `sendMarkdownV2` / `handleSendMessage`: empty or non-string content. -/
def contentEmptyError : WCError :=
  { kind := .invalidInput, code := Json.num (-1),
    message := "content 参数不能为空且必须是字符串" }

/-- `sendMarkdownV2`: UTF-8 byte length over the 4096 limit. -/
def contentTooLongError (byteLength : Nat) : WCError :=
  { kind := .invalidInput, code := Json.num (-1),
    message := "内容长度超出限制：当前 " ++ toString byteLength ++ " 字节，最大 4096 字节" }

/-- `uploadMedia`: falsy or non-string `filePath`. -/
def filePathError : WCError :=
  { kind := .invalidInput, code := Json.num (-1),
    message := "filePath 参数必须是有效的字符串" }

/-- `uploadMedia`: `type` not in `{file, voice}`. -/
def typeParamError : WCError :=
  { kind := .invalidInput, code := Json.num (-1),
    message := "type 参数必须是 \"file\" 或 \"voice\"" }

/-- The `FILE_SIZE_LIMITS` constant object of `src/wecom-client.js` —
note its keys are the UPPERCASE enum names, while `uploadMedia` indexes
it with the lowercase `type` argument. -/
def FILE_SIZE_LIMITS : Json :=
  Json.obj [("FILE", Json.num 20971520), ("VOICE", Json.num 2097152),
    ("IMAGE", Json.num 2097152)]

/-- Computed member access `o[k]`: the key value is string-coerced, and
a miss yields `undefined` (our `null`). -/
def jsIndex (o : Json) (k : Json) : Json := jsField o (jsShow k)

/-- The JS comparison `fileSize > maxSize` as it occurs in
`uploadMedia`: `fileSize` is a number; a numeric `maxSize` compares
numerically; the `undefined` produced by a missed
`FILE_SIZE_LIMITS[type]` lookup number-coerces to NaN, and every NaN
comparison is false.  No other value shape reaches this comparison in
the program. -/
def jsGtNum (a : Nat) (b : Json) : Bool :=
  match b with
  | Json.num m => decide (m < (a : Int))
  | _ => false

/-- `maxSize / 1024 / 1024` inside the over-limit template literal: a
number divides numerically, the NaN arising from `undefined` renders as
`"NaN"`.  (The branch using this is dead code in the program — see
`C2_uploadMedia_limits`.) -/
def maxMBShow (maxSize : Json) : String :=
  match maxSize with
  | Json.num m => toString (m / 1048576)
  | _ => "NaN"

/-- `uploadMedia`: the read stream rejected with `ENOENT`. -/
def fileMissingError (filePath : String) : WCError :=
  { kind := .notFound, code := Json.num (-1),
    message := "文件不存在：" ++ filePath }

/-- `uploadMedia`: file size at most 5 bytes. -/
def fileTooSmallError : WCError :=
  { kind := .invalidInput, code := Json.num (-1),
    message := "文件大小必须大于 5 字节" }

/-- `uploadMedia`: file size over `maxSize` — in the program this throw
is unreachable, because the `FILE_SIZE_LIMITS[type]` lookup misses
(lowercase key against uppercase keys) and the comparison against the
resulting `undefined` is always false. -/
def fileTooBigError (maxMB : String) : WCError :=
  { kind := .invalidInput, code := Json.num (-1),
    message := "文件大小超出限制：最大 " ++ maxMB ++ "MB" }

/-- `sendFile`: falsy or non-string `mediaId`. -/
def mediaIdError : WCError :=
  { kind := .invalidInput, code := Json.num (-1),
    message := "mediaId 参数必须是有效的字符串" }

/-- `sendImage`: falsy or non-string `imagePath`. -/
def imagePathError : WCError :=
  { kind := .invalidInput, code := Json.num (-1),
    message := "imagePath 参数必须是有效的字符串" }

/-- `sendImage`: the read stream rejected with `ENOENT`. -/
def imageMissingError (imagePath : String) : WCError :=
  { kind := .notFound, code := Json.num (-1),
    message := "图片文件不存在：" ++ imagePath }

/-- `sendImage`: extension outside `{jpg, jpeg, png}`. -/
def imageFormatError (ext : String) : WCError :=
  { kind := .invalidInput, code := Json.num (-1),
    message := "不支持的图片格式：" ++ ext ++ "，仅支持 jpg, jpeg, png" }

/-- `sendImage` / `sendImageFromUrl`: image bytes over 2 MB. -/
def imageTooBigError : WCError :=
  { kind := .invalidInput, code := Json.num (-1),
    message := "图片大小超出限制：最大 2MB" }

/-- `sendImageFromUrl`: falsy or non-string `imageUrl`. -/
def imageUrlError : WCError :=
  { kind := .invalidInput, code := Json.num (-1),
    message := "imageUrl 参数必须是有效的字符串" }

/-- `sendImageFromUrl`: `new URL(imageUrl)` threw. -/
def urlFormatError : WCError :=
  { kind := .invalidInput, code := Json.num (-1),
    message := "无效的 URL 格式" }

/-- Characters after the last occurrence of `sep` in the list, if any. -/
def afterLastChar (sep : Char) : List Char → Option (List Char)
  | [] => none
  | c :: cs =>
    match afterLastChar sep cs with
    | some r => some r
    | none => if c == sep then some cs else none

/-- `path.basename`: the part after the last `/` (the whole path when
there is no separator). -/
def basename (p : String) : String :=
  match afterLastChar '/' p.toList with
  | none => p
  | some r => String.mk r

/-- `extname(p).slice(1).toLowerCase()`: the lower-cased extension of the
base name, empty when there is no dot past the first character. -/
def extLower (p : String) : String :=
  match (basename p).toList with
  | [] => ""
  | _ :: rest =>
    match afterLastChar '.' rest with
    | none => ""
    | some ext => String.mk (ext.map Char.toLower)

/-- `WeComClient._getMimeType`: extension-to-MIME table with an
`application/octet-stream` default. -/
def getMimeType (p : String) : String :=
  match extLower p with
  | "pdf" => "application/pdf"
  | "doc" => "application/msword"
  | "docx" => "application/vnd.openxmlformats-officedocument.wordprocessingml.document"
  | "xls" => "application/vnd.ms-excel"
  | "xlsx" => "application/vnd.openxmlformats-officedocument.spreadsheetml.sheet"
  | "ppt" => "application/vnd.ms-powerpoint"
  | "pptx" => "application/vnd.openxmlformats-officedocument.presentationml.presentation"
  | "txt" => "text/plain"
  | "csv" => "text/csv"
  | "md" => "text/markdown"
  | "zip" => "application/zip"
  | "rar" => "application/x-rar-compressed"
  | "7z" => "application/x-7z-compressed"
  | "jpg" => "image/jpeg"
  | "jpeg" => "image/jpeg"
  | "png" => "image/png"
  | "gif" => "image/gif"
  | "webp" => "image/webp"
  | "mp3" => "audio/mpeg"
  | "wav" => "audio/wav"
  | "amr" => "audio/amr"
  | "mp4" => "video/mp4"
  | "avi" => "video/x-msvideo"
  | "mov" => "video/quicktime"
  | _ => "application/octet-stream"

/-- `new WeComClient(webhookKey)`: validates the key and yields the
client (represented by its key string). -/
def mkClient (webhookKey : Json) : Except WCError String :=
  match webhookKey with
  | Json.str s => if s == "" then Except.error clientKeyError else Except.ok s
  | _ => Except.error clientKeyError

namespace WeComClient

/-- `WeComClient.sendMessage` (the private generic send): POST
`{msgtype, [msgtype]: content}` to `/send?key=…`; a non-zero `errcode`
in a 200 body, a non-2xx response, and a transport error each become a
thrown `WeComError`. -/
def sendMessage (key : String) (env : Env) (msgType : String) (content : Json) : M Json :=
  let tr := [NetCall.send key msgType content]
  match env.send key msgType content with
  | HttpResp.ok body =>
    if (jsField body "errcode").eqNum 0 then
      (tr, Except.ok (Json.obj [("success", Json.bool true),
        ("message", Json.str "消息发送成功"), ("data", body)]))
    else
      let e : WCError :=
        { kind := .remoteError, code := jsField body "errcode",
          message := if (jsField body "errmsg").falsy then "发送消息失败"
                     else jsShow (jsField body "errmsg"),
          data := body }
      (tr, Except.error e)
  | HttpResp.httpErr status statusText body =>
    let e : WCError :=
      { kind := .remoteError, code := Json.num status,
        message := "API 响应错误：" ++ toString status ++ " " ++ statusText,
        data := Json.obj [("status", Json.num status), ("data", body)] }
    (tr, Except.error e)
  | HttpResp.netErr msg =>
    let e : WCError :=
      { kind := .remoteError, code := Json.num (-1),
        message := "网络请求失败：" ++ msg,
        data := Json.obj [("originalError", Json.str msg)] }
    (tr, Except.error e)

/-- `WeComClient.sendMarkdownV2`: rejects empty/non-string content and
content over 4096 UTF-8 bytes, then issues a `markdown_v2` send. -/
def sendMarkdownV2 (key : String) (env : Env) (content : Json) : M Json :=
  match content with
  | Json.str s =>
    if s == "" then M.throw contentEmptyError
    else
      let byteLength := s.utf8ByteSize
      if byteLength > 4096 then M.throw (contentTooLongError byteLength)
      else sendMessage key env "markdown_v2" (Json.obj [("content", Json.str s)])
  | _ => M.throw contentEmptyError

/-- `WeComClient.uploadMedia`: validates path and type, reads the file
(`none` from the file system models the `ENOENT` rejection), enforces
`size > 5`, then looks the kind-specific maximum up as
`FILE_SIZE_LIMITS[type]` — a lookup that always misses, because `type`
is lowercase and the keys are uppercase, so the over-limit comparison
is against `undefined` and never fires — then POSTs the multipart form
to `/upload_media`. -/
def uploadMedia (key : String) (env : Env) (filePath ty : Json) : M Json :=
  match filePath with
  | Json.str p =>
    if p == "" then M.throw filePathError
    else if !(ty.eqStr "file" || ty.eqStr "voice") then M.throw typeParamError
    else
      match env.fs p with
      | none => M.throw (fileMissingError p)
      | some bytes =>
        let fileSize := bytes.length
        if fileSize ≤ 5 then M.throw fileTooSmallError
        else
          let maxSize := jsIndex FILE_SIZE_LIMITS ty
          if jsGtNum fileSize maxSize then
            M.throw (fileTooBigError (maxMBShow maxSize))
          else
            let tr := [NetCall.upload key ty bytes (basename p) (getMimeType p)]
            match env.upload key ty bytes p with
            | Except.ok body =>
              if (jsField body "errcode").eqNum 0 then
                (tr, Except.ok (Json.obj [("success", Json.bool true),
                  ("message", Json.str "文件上传成功"),
                  ("media_id", jsField body "media_id"),
                  ("type", jsField body "type"),
                  ("created_at", jsField body "created_at")]))
              else
                let e : WCError :=
                  { kind := .remoteError, code := jsField body "errcode",
                    message := if (jsField body "errmsg").falsy then "文件上传失败"
                               else jsShow (jsField body "errmsg"),
                    data := body }
                (tr, Except.error e)
            | Except.error msg =>
              let e : WCError :=
                { kind := .remoteError, code := Json.num (-1),
                  message := "文件上传失败：" ++ msg,
                  data := Json.obj [("originalError", Json.str msg)] }
              (tr, Except.error e)
  | _ => M.throw filePathError

/-- `WeComClient.sendFile`: validates the media id and issues a `file`
send carrying it. -/
def sendFile (key : String) (env : Env) (mediaId : Json) : M Json :=
  match mediaId with
  | Json.str s =>
    if s == "" then M.throw mediaIdError
    else sendMessage key env "file" (Json.obj [("media_id", Json.str s)])
  | _ => M.throw mediaIdError

/-- `WeComClient.sendImage`: reads the local file, validates extension
and 2 MB bound, then issues an `image` send with base64 bytes and md5. -/
def sendImage (key : String) (env : Env) (imagePath : Json) : M Json :=
  match imagePath with
  | Json.str p =>
    if p == "" then M.throw imagePathError
    else
      match env.fs p with
      | none => M.throw (imageMissingError p)
      | some bytes =>
        let fileExt := extLower p
        if !(fileExt == "jpg" || fileExt == "jpeg" || fileExt == "png") then
          M.throw (imageFormatError fileExt)
        else if bytes.length > 2097152 then M.throw imageTooBigError
        else sendMessage key env "image" (Json.obj
          [("base64", Json.str (env.base64 bytes)), ("md5", Json.str (env.md5hex bytes))])
  | _ => M.throw imagePathError

/-- `WeComClient.sendImageFromUrl`: validates the URL, downloads the
bytes (status 200 only), enforces the 2 MB bound, then issues an `image`
send with base64 bytes and md5. -/
def sendImageFromUrl (key : String) (env : Env) (imageUrl : Json) : M Json :=
  match imageUrl with
  | Json.str u =>
    if u == "" then M.throw imageUrlError
    else if !(env.isURL u) then M.throw urlFormatError
    else
      let tr := [NetCall.fetch u]
      match env.fetch u with
      | Except.error msg =>
        let e : WCError :=
          { kind := .remoteError, code := Json.num (-1),
            message := "下载或发送图片失败：" ++ msg,
            data := Json.obj [("originalError", Json.str msg)] }
        (tr, Except.error e)
      | Except.ok bytes =>
        if bytes.length > 2097152 then (tr, Except.error imageTooBigError)
        else
          match sendMessage key env "image" (Json.obj
            [("base64", Json.str (env.base64 bytes)), ("md5", Json.str (env.md5hex bytes))]) with
          | (t', r) => (tr ++ t', r)
  | _ => M.throw imageUrlError

end WeComClient

/-! ## Embedding of `src/tools.js` (`ToolHandler`)

`DEFAULT_WEBHOOK_KEY` (read once from the `WECOM_WEBHOOK_KEY` environment
variable, `null` when unset or empty) is passed in as `defaultKey`. -/

/-- `ToolHandler.handle`: falsy or non-string tool name. -/
def toolNameError : WCError :=
  { kind := .invalidInput, code := Json.num (-1),
    message := "工具名称必须是有效的字符串" }

/-- `ToolHandler.handle`: unknown tool name (names the capability and
lists the valid ones). -/
def unknownToolError (name : String) : WCError :=
  { kind := .invalidInput, code := Json.num (-1),
    message := "未知工具：" ++ name ++ "。可用工具：send_message, send_file, send_image" }

/-- `ToolHandler._getWebhookKey`: neither a per-call key nor the
configured default is available. -/
def keyMissingError : WCError :=
  { kind := .invalidInput, code := Json.num (-1),
    message := "未提供 webhook_key 参数，且未设置 WECOM_WEBHOOK_KEY 环境变量" }

/-- `handleSendFile`: falsy or non-string `file_path`. -/
def filePathArgError : WCError :=
  { kind := .invalidInput, code := Json.num (-1),
    message := "file_path 参数不能为空且必须是字符串" }

/-- `handleSendImage`: neither `image_path` nor `image_url` supplied. -/
def imageArgMissingError : WCError :=
  { kind := .invalidInput, code := Json.num (-1),
    message := "必须提供 image_path 或 image_url 参数" }

/-- `handleSendImage`: both `image_path` and `image_url` supplied. -/
def imageArgBothError : WCError :=
  { kind := .invalidInput, code := Json.num (-1),
    message := "image_path 和 image_url 只能提供一个" }

/-- One item of a tool result's `content` array.  `text` holds the JS
value that `JSON.stringify(·, null, 2)` serializes into the text field;
working on the value directly models the stringify/parse round trip of
the external `JSON` library as the identity. -/
structure ContentItem where
  type : String
  text : Json

/-- The uniform tool response envelope (`ToolResult` in the source).
`isError` is absent (hence falsy) on success, `true` on failure. -/
structure ToolResult where
  isError : Bool := false
  content : List ContentItem

namespace ToolHandler

/-- `ToolHandler._formatSuccess`. -/
def formatSuccess (data : Json) : ToolResult :=
  { content := [{ type := "text", text := data }] }

/-- `ToolHandler._formatError`: wraps `{error, message, code}` plus
`data` when the error's `data` is truthy (for a `WeComError` it always
is: the constructor defaults it to `{}`, a truthy object). -/
def formatError (e : WCError) : ToolResult :=
  let base := [("error", Json.str "WeComError"),
               ("message", Json.str e.message), ("code", e.code)]
  let errorData := if e.data.falsy then base else base ++ [("data", e.data)]
  { isError := true, content := [{ type := "text", text := Json.obj errorData }] }

/-- `ToolHandler._getWebhookKey` as the `key = provided || DEFAULT;
if (!key) throw` chain.  The resolved key is returned as the JS value
handed to `new WeComClient(...)` (a truthy per-call value need not be a
string; the client constructor re-checks). -/
def getWebhookKey (defaultKey : Option String) (providedKey : Json) : Except WCError Json :=
  let key : Json :=
    if providedKey.falsy then
      match defaultKey with
      | some k => Json.str k
      | none => Json.null
    else providedKey
  if key.falsy then Except.error keyMissingError else Except.ok key

/-- `try { body } catch (e) { return this._formatError(e) }` around a
handler body, with `_formatSuccess` applied to a normal return: the
uniform-envelope normalization each `handleSend*` performs. -/
def runHandler (body : M Json) : M ToolResult :=
  match body with
  | (t, Except.ok data) => (t, Except.ok (formatSuccess data))
  | (t, Except.error e) => (t, Except.ok (formatError e))

/-- `ToolHandler.handleSendMessage`. -/
def handleSendMessage (defaultKey : Option String) (env : Env) (args : Json) : M ToolResult :=
  runHandler
    (match getWebhookKey defaultKey (jsField args "webhook_key") with
     | Except.error e => M.throw e
     | Except.ok key =>
       let content := jsField args "content"
       if content.falsy || !content.isStr then M.throw contentEmptyError
       else
         match mkClient key with
         | Except.error e => M.throw e
         | Except.ok client => WeComClient.sendMarkdownV2 client env content)

/-- `ToolHandler.handleSendFile`: upload then send, as two sequential
remote operations; returns `{upload, send}`. -/
def handleSendFile (defaultKey : Option String) (env : Env) (args : Json) : M ToolResult :=
  runHandler
    (match getWebhookKey defaultKey (jsField args "webhook_key") with
     | Except.error e => M.throw e
     | Except.ok key =>
       let filePath := jsField args "file_path"
       if filePath.falsy || !filePath.isStr then M.throw filePathArgError
       else
         match mkClient key with
         | Except.error e => M.throw e
         | Except.ok client =>
           M.bind (WeComClient.uploadMedia client env filePath (Json.str "file"))
             (fun uploadResult =>
               M.bind (WeComClient.sendFile client env (jsField uploadResult "media_id"))
                 (fun sendResult =>
                   M.pure (Json.obj [("upload", uploadResult), ("send", sendResult)]))))

/-- `ToolHandler.handleSendImage`: requires exactly one of
`image_path` / `image_url` (JS truthiness) and routes to the local-file
or URL-fetch client variant. -/
def handleSendImage (defaultKey : Option String) (env : Env) (args : Json) : M ToolResult :=
  runHandler
    (match getWebhookKey defaultKey (jsField args "webhook_key") with
     | Except.error e => M.throw e
     | Except.ok key =>
       let imagePath := jsField args "image_path"
       let imageUrl := jsField args "image_url"
       if imagePath.falsy && imageUrl.falsy then M.throw imageArgMissingError
       else if !imagePath.falsy && !imageUrl.falsy then M.throw imageArgBothError
       else
         match mkClient key with
         | Except.error e => M.throw e
         | Except.ok client =>
           if !imagePath.falsy then WeComClient.sendImage client env imagePath
           else WeComClient.sendImageFromUrl client env imageUrl)

/-- `ToolHandler.handle`: validates the tool name and routes to the
matching handler; a falsy/non-string or unknown name is thrown (not
caught inside the dispatcher — the `Except.error` outcome here is a
raised exception escaping to the caller). -/
def handle (defaultKey : Option String) (env : Env) (name args : Json) : M ToolResult :=
  match name with
  | Json.str s =>
    if s == "" then M.throw toolNameError
    else if s == "send_message" then handleSendMessage defaultKey env args
    else if s == "send_file" then handleSendFile defaultKey env args
    else if s == "send_image" then handleSendImage defaultKey env args
    else M.throw (unknownToolError s)
  | _ => M.throw toolNameError

end ToolHandler

/-! ## Embedding of `index.js` (`MCPServer`)

The router consumes one parsed line at a time.  `JSON.parse` is external:
a line is modelled as `Except String Json` (`Except.error msg` = the
parse threw with message `msg`; blank lines are skipped before parsing
and never reach this logic).  `JSON.stringify`/`process.stdout.write`
are external: an emitted response is modelled structurally as an `Out`
value.  In the embedding `routeRequest` is total, so the router's
`catch`-to-Internal-error wrapper around it can never fire and is not
represented. -/

namespace JSONRPC

def PARSE_ERROR : Int := -32700
def INVALID_REQUEST : Int := -32600
def METHOD_NOT_FOUND : Int := -32601
def INVALID_PARAMS : Int := -32602
def INTERNAL_ERROR : Int := -32603

end JSONRPC

/-- `MCP_VERSION`. -/
def MCP_VERSION : String := "2024-11-05"

/-- `SERVER_INFO`. -/
def serverInfoJson : Json :=
  Json.obj [("name", Json.str "wecom-robot-mcp"), ("version", Json.str "1.0.0"),
    ("description", Json.str "企业微信机器人 MCP 服务，支持发送消息、文件和图片")]

/-- The static `tools` array of `src/tools.js`, as the JSON value
`handleToolsList` serializes (name, description, inputSchema of each). -/
def toolsJson : Json :=
  Json.arr
    [Json.obj
      [("name", Json.str "send_message"),
       ("description", Json.str "发送 Markdown V2 格式的消息到企业微信机器人。支持标题、加粗、斜体、列表、引用、链接、代码块、表格等语法。内容最大 4096 字节。如果配置了 WECOM_WEBHOOK_KEY 环境变量，webhook_key 参数可选。"),
       ("inputSchema", Json.obj
         [("type", Json.str "object"),
          ("properties", Json.obj
            [("webhook_key", Json.obj
               [("type", Json.str "string"),
                ("description", Json.str "企业微信机器人的 webhook key。如果未设置 WECOM_WEBHOOK_KEY 环境变量，则此参数必填。")]),
             ("content", Json.obj
               [("type", Json.str "string"),
                ("description", Json.str "Markdown V2 格式的消息内容。支持语法：# 标题、**加粗**、*斜体*、- 列表、> 引用、[链接](url)、`代码`、```代码块```、|表格| 等")])]),
          ("required", Json.arr [Json.str "content"]),
          ("additionalProperties", Json.bool false)])],
     Json.obj
      [("name", Json.str "send_file"),
       ("description", Json.str "发送文件到企业微信机器人。先上传文件到企业微信服务器，然后发送文件消息。支持 PDF、Word、Excel、PPT、TXT、ZIP 等格式，最大 20MB。如果配置了 WECOM_WEBHOOK_KEY 环境变量，webhook_key 参数可选。"),
       ("inputSchema", Json.obj
         [("type", Json.str "object"),
          ("properties", Json.obj
            [("webhook_key", Json.obj
               [("type", Json.str "string"),
                ("description", Json.str "企业微信机器人的 webhook key。如果未设置 WECOM_WEBHOOK_KEY 环境变量，则此参数必填。")]),
             ("file_path", Json.obj
               [("type", Json.str "string"),
                ("description", Json.str "本地文件的绝对路径或相对路径（例如：/path/to/document.pdf 或 ./files/report.xlsx）")])]),
          ("required", Json.arr [Json.str "file_path"]),
          ("additionalProperties", Json.bool false)])],
     Json.obj
      [("name", Json.str "send_image"),
       ("description", Json.str "发送图片到企业微信机器人。支持本地图片文件路径或网络图片 URL。仅支持 JPG 和 PNG 格式，最大 2MB。如果配置了 WECOM_WEBHOOK_KEY 环境变量，webhook_key 参数可选。"),
       ("inputSchema", Json.obj
         [("type", Json.str "object"),
          ("properties", Json.obj
            [("webhook_key", Json.obj
               [("type", Json.str "string"),
                ("description", Json.str "企业微信机器人的 webhook key。如果未设置 WECOM_WEBHOOK_KEY 环境变量，则此参数必填。")]),
             ("image_path", Json.obj
               [("type", Json.str "string"),
                ("description", Json.str "本地图片文件的路径（可选，与 image_url 二选一）")]),
             ("image_url", Json.obj
               [("type", Json.str "string"),
                ("description", Json.str "网络图片的 URL 地址（可选，与 image_path 二选一）")])]),
          ("required", Json.arr []),
          ("oneOf", Json.arr
            [Json.obj [("required", Json.arr [Json.str "image_path"])],
             Json.obj [("required", Json.arr [Json.str "image_url"])]]),
          ("additionalProperties", Json.bool false)])]]

/-- `handleInitialize`'s response payload. -/
def initializeResult : Json :=
  Json.obj [("protocolVersion", Json.str MCP_VERSION),
    ("capabilities", Json.obj
      [("tools", Json.obj []), ("resources", Json.obj []), ("prompts", Json.obj [])]),
    ("serverInfo", serverInfoJson)]

/-- The server's one piece of mutable state: the readiness flag set by
the `initialized` notification. -/
structure SrvState where
  isInitialized : Bool

/-- A `result` payload written by `sendResponse`: either a plain JSON
value or a tool-call envelope. -/
inductive RVal where
  | json (j : Json)
  | tool (r : ToolResult)

/-- One line written to stdout: a success response (`sendResponse`) or
an error response (`sendError`, whose `data` member is omitted when the
argument is `null`). -/
inductive Out where
  | response (id : Json) (result : RVal)
  | errorResp (id : Json) (code : Int) (message : String) (data : Option Json)

/-- The `id` member of an emitted response. -/
def Out.idOf : Out → Json
  | .response id _ => id
  | .errorResp id _ _ _ => id

/-- Everything observable a handled line produces besides the new server
state: stdout responses, the `toolHandler.handle` invocations, and the
outbound HTTP requests. -/
structure Effects where
  outs : List Out
  dispatches : List (Json × Json)
  net : List NetCall

namespace MCPServer

/-- `MCPServer.handleToolsCall`: extracts `params.name` /
`params.arguments`, rejects a falsy name with Invalid params before
invoking the dispatcher, and converts a throw escaping
`ToolHandler.handle` into an Internal-error JSON-RPC response. -/
def handleToolsCall (defaultKey : Option String) (env : Env) (req : Json) : Effects :=
  let params := jsField req "params"
  let name := jsField params "name"
  let args := jsField params "arguments"
  if name.falsy then
    ⟨[Out.errorResp (jsField req "id") JSONRPC.INVALID_PARAMS "Invalid params"
        (some (Json.str "缺少工具名称"))], [], []⟩
  else
    let args' := if args.falsy then Json.obj [] else args
    match ToolHandler.handle defaultKey env name args' with
    | (t, Except.ok result) =>
      ⟨[Out.response (jsField req "id") (RVal.tool result)], [(name, args')], t⟩
    | (t, Except.error e) =>
      ⟨[Out.errorResp (jsField req "id") JSONRPC.INTERNAL_ERROR "Tool execution failed"
          (some (Json.str e.message))], [(name, args')], t⟩

/-- `MCPServer.routeRequest`: the static dispatch over the nine
recognized methods, with Method-not-found for everything else. -/
def routeRequest (defaultKey : Option String) (env : Env) (s : SrvState) (req : Json) :
    SrvState × Effects :=
  let id := jsField req "id"
  let method := jsField req "method"
  if method.eqStr "initialize" then
    (s, ⟨[Out.response id (RVal.json initializeResult)], [], []⟩)
  else if method.eqStr "initialized" then ({ isInitialized := true }, ⟨[], [], []⟩)
  else if method.eqStr "ping" then (s, ⟨[Out.response id (RVal.json (Json.obj []))], [], []⟩)
  else if method.eqStr "tools/list" then
    (s, ⟨[Out.response id (RVal.json (Json.obj [("tools", toolsJson)]))], [], []⟩)
  else if method.eqStr "tools/call" then (s, handleToolsCall defaultKey env req)
  else if method.eqStr "resources/list" then
    (s, ⟨[Out.response id (RVal.json (Json.obj [("resources", Json.arr [])]))], [], []⟩)
  else if method.eqStr "resources/read" then
    (s, ⟨[Out.errorResp id JSONRPC.METHOD_NOT_FOUND "Method not found"
        (some (Json.str "本服务不支持资源读取"))], [], []⟩)
  else if method.eqStr "prompts/list" then
    (s, ⟨[Out.response id (RVal.json (Json.obj [("prompts", Json.arr [])]))], [], []⟩)
  else if method.eqStr "prompts/get" then
    (s, ⟨[Out.errorResp id JSONRPC.METHOD_NOT_FOUND "Method not found"
        (some (Json.str "本服务不支持提示功能"))], [], []⟩)
  else
    (s, ⟨[Out.errorResp id JSONRPC.METHOD_NOT_FOUND "Method not found"
        (some (Json.str ("未知方法：" ++ jsShow method)))], [], []⟩)

/-- `MCPServer.handleLine` from the parse result on: Parse error with a
null id for a line `JSON.parse` rejects, Invalid Request echoing the
request id for a protocol version other than `"2.0"`, otherwise
`routeRequest`. -/
def handleLine (defaultKey : Option String) (env : Env) (s : SrvState)
    (line : Except String Json) : SrvState × Effects :=
  match line with
  | Except.error parseMsg =>
    (s, ⟨[Out.errorResp Json.null JSONRPC.PARSE_ERROR "Parse error"
        (some (Json.str parseMsg))], [], []⟩)
  | Except.ok req =>
    if (jsField req "jsonrpc").eqStr "2.0" then routeRequest defaultKey env s req
    else
      (s, ⟨[Out.errorResp (jsField req "id") JSONRPC.INVALID_REQUEST "Invalid Request"
          (some (Json.str "不支持的 JSON-RPC 版本，仅支持 2.0"))], [], []⟩)

end MCPServer

/-! ## A concrete environment and helper lemmas for the claim witnesses -/

/-- A small concrete world: two local files (5 and 6 bytes), one image,
a remote that always answers `{errcode: 0, errmsg: "ok"}`, and an upload
endpoint that returns media id `MEDIA-1`. -/
def envTest : Env :=
  { fs := fun p =>
      if p == "five.txt" then some (List.replicate 5 7)
      else if p == "six.txt" then some (List.replicate 6 7)
      else if p == "pic.png" then some (List.replicate 10 1)
      else none,
    send := fun _ _ _ => HttpResp.ok (Json.obj [("errcode", Json.num 0), ("errmsg", Json.str "ok")]),
    upload := fun _ _ _ _ => Except.ok (Json.obj
      [("errcode", Json.num 0), ("errmsg", Json.str "ok"),
       ("media_id", Json.str "MEDIA-1"), ("type", Json.str "file"),
       ("created_at", Json.str "1700000000")]),
    fetch := fun _ => Except.ok (List.replicate 10 1),
    isURL := fun _ => true,
    md5hex := fun _ => "0123456789abcdef0123456789abcdef",
    base64 := fun _ => "AQEB" }

/-- A handler body wrapped by `runHandler` (try/catch plus formatting)
always returns normally: the envelope is produced for success and
failure alike. -/
theorem runHandler_isOk (body : M Json) :
    ∃ t r, ToolHandler.runHandler body = (t, Except.ok r) := by
  obtain ⟨t, res⟩ := body
  cases res with
  | ok a => exact ⟨t, ToolHandler.formatSuccess a, rfl⟩
  | error e => exact ⟨t, ToolHandler.formatError e, rfl⟩

/-- The only error `_getWebhookKey` can produce is the
missing-credential one. -/
theorem getWebhookKey_error {dk : Option String} {p : Json} {e : WCError}
    (h : ToolHandler.getWebhookKey dk p = Except.error e) : e = keyMissingError := by
  simp only [ToolHandler.getWebhookKey] at h
  repeat' split at h
  all_goals first
    | exact (Except.error.inj h).symm
    | exact Except.noConfusion h

/-- The only error the `WeComClient` constructor can produce is the
key-parameter one. -/
theorem mkClient_error {k : Json} {e : WCError}
    (h : mkClient k = Except.error e) : e = clientKeyError := by
  unfold mkClient at h
  repeat' split at h
  all_goals first
    | exact (Except.error.inj h).symm
    | exact Except.noConfusion h

/-- `ToolHandler.handle` on any non-empty tool name outside the three
known capabilities throws the unknown-tool error (a raised exception,
not an envelope). -/
theorem handle_unknown (dk : Option String) (env : Env) (args : Json) (name : String)
    (h0 : name ≠ "") (h1 : name ≠ "send_message") (h2 : name ≠ "send_file")
    (h3 : name ≠ "send_image") :
    ToolHandler.handle dk env (Json.str name) args = ([], Except.error (unknownToolError name)) := by
  simp [ToolHandler.handle, h0, h1, h2, h3, M.throw]

/-- The UTF-8 byte size of a character repeated `n` times. -/
theorem utf8_replicate (n : Nat) (c : Char) :
    (String.mk (List.replicate n c)).utf8ByteSize = n * c.utf8Size := by
  induction n with
  | zero => exact (Nat.zero_mul _).symm
  | succ k ih =>
    simp only [List.replicate_succ, String.utf8ByteSize_mk, String.utf8Len_cons] at ih ⊢
    rw [ih, Nat.succ_mul]

/-! ## Claim C1 -/

/-- Claim C1 is false as stated: invoking the dispatcher with the
unknown capability name `unknown_tool` does not yield the uniform
response envelope — `ToolHandler.handle` throws (`Except.error`), and
that raised exception escapes the dispatcher to its caller. -/
theorem C1_counterexample :
    ToolHandler.handle none envTest (Json.str "unknown_tool") (Json.obj []) =
      ([], Except.error (unknownToolError "unknown_tool")) ∧
    (ToolHandler.handle none envTest (Json.str "unknown_tool") (Json.obj [])).2.isOk = false :=
  ⟨rfl, rfl⟩

/-- Claim C1 (amended): for the three known capability names every
outcome is returned to the caller as the uniform envelope
(`Except.ok`, never a raised exception); for any other non-empty name
the dispatcher raises an InvalidInput `WeComError` naming the unknown
capability and listing the valid names, and the protocol layer's
`handleToolsCall` converts that raised exception into a JSON-RPC
Internal-error response (so the transport still emits a response, but
not the uniform envelope). -/
theorem C1_uniform_envelope (dk : Option String) (env : Env) (args : Json) :
    (∀ name, name = "send_message" ∨ name = "send_file" ∨ name = "send_image" →
      ∃ t r, ToolHandler.handle dk env (Json.str name) args = (t, Except.ok r)) ∧
    (∀ name, name ≠ "" → name ≠ "send_message" → name ≠ "send_file" → name ≠ "send_image" →
      ToolHandler.handle dk env (Json.str name) args = ([], Except.error (unknownToolError name)) ∧
      (unknownToolError name).kind = ErrKind.invalidInput) ∧
    (∀ req name, jsField (jsField req "params") "name" = Json.str name →
      name ≠ "" → name ≠ "send_message" → name ≠ "send_file" → name ≠ "send_image" →
      MCPServer.handleToolsCall dk env req =
        ⟨[Out.errorResp (jsField req "id") JSONRPC.INTERNAL_ERROR "Tool execution failed"
            (some (Json.str (unknownToolError name).message))],
         [(Json.str name,
           if (jsField (jsField req "params") "arguments").falsy then Json.obj []
           else jsField (jsField req "params") "arguments")], []⟩) := by
  refine ⟨?_, ?_, ?_⟩
  · intro name h
    rcases h with rfl | rfl | rfl
    · exact runHandler_isOk _
    · exact runHandler_isOk _
    · exact runHandler_isOk _
  · intro name h0 h1 h2 h3
    exact ⟨handle_unknown dk env args name h0 h1 h2 h3, rfl⟩
  · intro req name hn h0 h1 h2 h3
    simp only [MCPServer.handleToolsCall, hn]
    have hf : (Json.str name).falsy = false := by simp [Json.falsy, h0]
    rw [hf, handle_unknown dk env _ name h0 h1 h2 h3]
    simp

/-- Concrete `tools/call` request naming an unknown tool. -/
def reqUnknown : Json :=
  Json.obj [("jsonrpc", Json.str "2.0"), ("id", Json.num 9),
    ("method", Json.str "tools/call"),
    ("params", Json.obj [("name", Json.str "no_such_tool")])]

/-- Claim C1 witness: the amended statement evaluated at concrete
inputs — a known capability returns an envelope, the unknown name
`no_such_tool` raises, and the router converts the raise into the
Internal-error response with the request id. -/
theorem C1_uniform_envelope_witness :
    (∃ t r, ToolHandler.handle none envTest (Json.str "send_message") (Json.obj []) =
      (t, Except.ok r)) ∧
    ToolHandler.handle none envTest (Json.str "no_such_tool") (Json.obj []) =
      ([], Except.error (unknownToolError "no_such_tool")) ∧
    MCPServer.handleToolsCall none envTest reqUnknown =
      ⟨[Out.errorResp (Json.num 9) JSONRPC.INTERNAL_ERROR "Tool execution failed"
          (some (Json.str (unknownToolError "no_such_tool").message))],
       [(Json.str "no_such_tool", Json.obj [])], []⟩ := by
  refine ⟨(C1_uniform_envelope none envTest (Json.obj [])).1 "send_message" (Or.inl rfl),
    ((C1_uniform_envelope none envTest (Json.obj [])).2.1 "no_such_tool"
      (by decide) (by decide) (by decide) (by decide)).1, ?_⟩
  have h := (C1_uniform_envelope none envTest (Json.obj [])).2.2 reqUnknown "no_such_tool"
    rfl (by decide) (by decide) (by decide) (by decide)
  exact h

/-! ## Claim C5 -/

/-- Claim C5: every request envelope whose `jsonrpc` field differs from
`"2.0"` is rejected before dispatch — the only output is an Invalid
Request error (code -32600) echoing the request's identifier, no
dispatcher invocation and no network call happen, and the server state
is unchanged. -/
theorem C5_invalid_version_rejected (dk : Option String) (env : Env) (s : SrvState)
    (req : Json) (h : jsField req "jsonrpc" ≠ Json.str "2.0") :
    MCPServer.handleLine dk env s (Except.ok req) =
      (s, ⟨[Out.errorResp (jsField req "id") JSONRPC.INVALID_REQUEST "Invalid Request"
          (some (Json.str "不支持的 JSON-RPC 版本，仅支持 2.0"))], [], []⟩) ∧
    JSONRPC.INVALID_REQUEST = -32600 := by
  refine ⟨?_, rfl⟩
  have hf : (jsField req "jsonrpc").eqStr "2.0" = false :=
    Bool.eq_false_iff.mpr (fun hh => h (Json.eqStr_iff.mp hh))
  simp only [MCPServer.handleLine, hf]
  rfl

/-- The spec's concrete scenario line, parsed:
`{"jsonrpc":"1.0","id":2,"method":"ping"}`. -/
def reqBadVersion : Json :=
  Json.obj [("jsonrpc", Json.str "1.0"), ("id", Json.num 2), ("method", Json.str "ping")]

/-- Claim C5 witness: the scenario input yields the Invalid Request
error with id 2. -/
theorem C5_witness :
    MCPServer.handleLine none envTest ⟨false⟩ (Except.ok reqBadVersion) =
      (⟨false⟩, ⟨[Out.errorResp (Json.num 2) JSONRPC.INVALID_REQUEST "Invalid Request"
          (some (Json.str "不支持的 JSON-RPC 版本，仅支持 2.0"))], [], []⟩) :=
  (C5_invalid_version_rejected none envTest ⟨false⟩ reqBadVersion
    (by rw [show jsField reqBadVersion "jsonrpc" = Json.str "1.0" from rfl]; simp)).1

/-! ## Claim C10 -/

/-- Claim C10: a `tools/call` request whose params carry no tool name
(absent params included: the extracted name is then `null`) receives an
Invalid Params error (code -32602) with the request identifier, and the
Capability Dispatcher is never invoked (no dispatch record, no network
call). -/
theorem C10_missing_tool_name (dk : Option String) (env : Env) (s : SrvState) (req : Json)
    (h1 : jsField req "jsonrpc" = Json.str "2.0")
    (h2 : jsField req "method" = Json.str "tools/call")
    (h3 : jsField (jsField req "params") "name" = Json.null) :
    MCPServer.handleLine dk env s (Except.ok req) =
      (s, ⟨[Out.errorResp (jsField req "id") JSONRPC.INVALID_PARAMS "Invalid params"
          (some (Json.str "缺少工具名称"))], [], []⟩) ∧
    JSONRPC.INVALID_PARAMS = -32602 := by
  refine ⟨?_, rfl⟩
  have e1 : MCPServer.handleLine dk env s (Except.ok req) =
      MCPServer.routeRequest dk env s req := by
    simp only [MCPServer.handleLine, Json.eqStr_iff.mpr h1]
    rfl
  have e2 : MCPServer.routeRequest dk env s req =
      (s, MCPServer.handleToolsCall dk env req) := by
    simp only [MCPServer.routeRequest]
    rw [h2]
    rfl
  rw [e1, e2]
  simp only [MCPServer.handleToolsCall]
  rw [h3]
  rfl

/-- Concrete `tools/call` request with absent `params`. -/
def reqNoName : Json :=
  Json.obj [("jsonrpc", Json.str "2.0"), ("id", Json.num 7), ("method", Json.str "tools/call")]

/-- Claim C10 witness: the concrete no-params `tools/call` line yields
the Invalid Params error with id 7 and an empty dispatch trace. -/
theorem C10_witness :
    MCPServer.handleLine none envTest ⟨false⟩ (Except.ok reqNoName) =
      (⟨false⟩, ⟨[Out.errorResp (Json.num 7) JSONRPC.INVALID_PARAMS "Invalid params"
          (some (Json.str "缺少工具名称"))], [], []⟩) :=
  (C10_missing_tool_name none envTest ⟨false⟩ reqNoName rfl rfl rfl).1

/-! ## Claim C7 -/

/-- Claim C7: with no configured default credential and a falsy (in
particular absent) per-call `webhook_key`, each of the three
capabilities returns the missing-credential InvalidInput failure
envelope, with no network call made. -/
theorem C7_missing_credential (env : Env) (args : Json) (name : String)
    (hn : name = "send_message" ∨ name = "send_file" ∨ name = "send_image")
    (hk : (jsField args "webhook_key").falsy = true) :
    ToolHandler.handle none env (Json.str name) args =
      ([], Except.ok (ToolHandler.formatError keyMissingError)) ∧
    keyMissingError.kind = ErrKind.invalidInput := by
  refine ⟨?_, rfl⟩
  have hkey : ToolHandler.getWebhookKey none (jsField args "webhook_key") =
      Except.error keyMissingError := by
    unfold ToolHandler.getWebhookKey
    rw [hk]
    rfl
  rcases hn with rfl | rfl | rfl
  · show ToolHandler.handleSendMessage none env args = _
    simp [ToolHandler.handleSendMessage, hkey, ToolHandler.runHandler, M.throw]
  · show ToolHandler.handleSendFile none env args = _
    simp [ToolHandler.handleSendFile, hkey, ToolHandler.runHandler, M.throw]
  · show ToolHandler.handleSendImage none env args = _
    simp [ToolHandler.handleSendImage, hkey, ToolHandler.runHandler, M.throw]

/-- Claim C7 witness: all three capabilities, called with well-formed
arguments but no credential anywhere, produce the missing-credential
envelope. -/
theorem C7_witness :
    ToolHandler.handle none envTest (Json.str "send_message")
        (Json.obj [("content", Json.str "hi")]) =
      ([], Except.ok (ToolHandler.formatError keyMissingError)) ∧
    ToolHandler.handle none envTest (Json.str "send_file")
        (Json.obj [("file_path", Json.str "six.txt")]) =
      ([], Except.ok (ToolHandler.formatError keyMissingError)) ∧
    ToolHandler.handle none envTest (Json.str "send_image")
        (Json.obj [("image_path", Json.str "pic.png")]) =
      ([], Except.ok (ToolHandler.formatError keyMissingError)) :=
  ⟨(C7_missing_credential envTest (Json.obj [("content", Json.str "hi")])
      "send_message" (Or.inl rfl) rfl).1,
   (C7_missing_credential envTest (Json.obj [("file_path", Json.str "six.txt")])
      "send_file" (Or.inr (Or.inl rfl)) rfl).1,
   (C7_missing_credential envTest (Json.obj [("image_path", Json.str "pic.png")])
      "send_image" (Or.inr (Or.inr rfl)) rfl).1⟩

/-! ## Claim C9 -/

/-- Claim C9: the readiness flag set by the `initialized` notification
is advisory only — for every incoming line, the emitted responses,
dispatcher invocations and network calls are identical whether the flag
is set or not (no handler consults it). -/
theorem C9_initialized_flag_advisory (dk : Option String) (env : Env) (b b' : Bool)
    (line : Except String Json) :
    (MCPServer.handleLine dk env ⟨b⟩ line).2 = (MCPServer.handleLine dk env ⟨b'⟩ line).2 := by
  cases line with
  | error m => rfl
  | ok req =>
    simp only [MCPServer.handleLine]
    split
    · unfold MCPServer.routeRequest
      dsimp only
      simp only [apply_ite Prod.snd]
    · rfl

/-! ## Claim C6 -/

/-- Every response `handleToolsCall` emits carries the request's id. -/
theorem handleToolsCall_id (dk : Option String) (env : Env) (req : Json) :
    ∀ o ∈ (MCPServer.handleToolsCall dk env req).outs, o.idOf = jsField req "id" := by
  intro o ho
  unfold MCPServer.handleToolsCall at ho
  dsimp only at ho
  simp only [apply_ite Effects.outs] at ho
  repeat' split at ho
  all_goals simp only [List.mem_singleton] at ho
  all_goals subst ho
  all_goals rfl

/-- Claim C6: for every request with the valid protocol version, every
emitted response — success or error — carries exactly the request's
identifier (the `initialized` notification emits nothing, so the claim
is vacuous for it). -/
theorem C6_response_id_echo (dk : Option String) (env : Env) (s : SrvState) (req : Json)
    (hv : jsField req "jsonrpc" = Json.str "2.0") :
    ∀ o ∈ (MCPServer.handleLine dk env s (Except.ok req)).2.outs, o.idOf = jsField req "id" := by
  intro o ho
  have e1 : MCPServer.handleLine dk env s (Except.ok req) = MCPServer.routeRequest dk env s req := by
    simp only [MCPServer.handleLine, Json.eqStr_iff.mpr hv]
    rfl
  rw [e1] at ho
  unfold MCPServer.routeRequest at ho
  dsimp only at ho
  simp only [apply_ite Prod.snd] at ho
  simp only [apply_ite Effects.outs] at ho
  repeat' split at ho
  all_goals first
    | exact handleToolsCall_id dk env req o ho
    | exact absurd ho (List.not_mem_nil o)
    | (simp only [List.mem_singleton] at ho; subst ho; rfl)

/-- The spec's ping scenario line, parsed:
`{"jsonrpc":"2.0","id":1,"method":"ping"}`. -/
def reqPing : Json :=
  Json.obj [("jsonrpc", Json.str "2.0"), ("id", Json.num 1), ("method", Json.str "ping")]

/-- Claim C6 witness: the ping scenario's emitted response (the empty
result object) carries id 1, the id of the request. -/
theorem C6_witness :
    (Out.response (Json.num 1) (RVal.json (Json.obj []))).idOf = jsField reqPing "id" :=
  C6_response_id_echo none envTest ⟨false⟩ reqPing rfl
    (Out.response (Json.num 1) (RVal.json (Json.obj [])))
    (List.mem_singleton_self _)

/-! ## Shared facts about the send-message path -/

/-- `runHandler` preserves the network trace of the body. -/
theorem runHandler_fst (m : M Json) : (ToolHandler.runHandler m).1 = m.1 := by
  obtain ⟨t, res⟩ := m
  cases res <;> rfl

/-- The generic send issues exactly one network call. -/
theorem sendMessage_trace (key : String) (env : Env) (msgType : String) (content : Json) :
    (WeComClient.sendMessage key env msgType content).1 = [NetCall.send key msgType content] := by
  unfold WeComClient.sendMessage
  dsimp only
  repeat' split
  all_goals rfl

/-- On a resolvable non-empty string credential and valid content (a
non-empty string of at most 4096 UTF-8 bytes), `handleSendMessage` is
exactly the wrapped `markdown_v2` generic send. -/
theorem handleSendMessage_valid (dk : Option String) (env : Env) (args : Json) (s k : String)
    (hc : jsField args "content" = Json.str s) (hs : s ≠ "")
    (hlen : s.utf8ByteSize ≤ 4096)
    (hkey : ToolHandler.getWebhookKey dk (jsField args "webhook_key") = Except.ok (Json.str k))
    (hk : k ≠ "") :
    ToolHandler.handleSendMessage dk env args =
      ToolHandler.runHandler (WeComClient.sendMessage k env "markdown_v2"
        (Json.obj [("content", Json.str s)])) := by
  have hmk : mkClient (Json.str k) = Except.ok k := by
    simp [mkClient, hk]
  simp only [ToolHandler.handleSendMessage, hkey, hc, hmk, WeComClient.sendMarkdownV2,
    Json.falsy, Json.isStr, Bool.not_true, Bool.or_false,
    if_neg (show ¬ s.utf8ByteSize > 4096 by omega)]
  simp [hs]

/-- With falsy/non-string content, or string content over 4096 UTF-8
bytes, `handleSendMessage` fails with an InvalidInput envelope before
any network call (whatever the credential situation). -/
theorem handleSendMessage_invalid (dk : Option String) (env : Env) (args : Json)
    (h : ((jsField args "content").falsy || !(jsField args "content").isStr) = true ∨
      ∃ s, jsField args "content" = Json.str s ∧ 4096 < s.utf8ByteSize) :
    ∃ e, ToolHandler.handleSendMessage dk env args =
      ([], Except.ok (ToolHandler.formatError e)) ∧ e.kind = ErrKind.invalidInput := by
  cases hgw : ToolHandler.getWebhookKey dk (jsField args "webhook_key") with
  | error e =>
    refine ⟨keyMissingError, ?_, rfl⟩
    have he := getWebhookKey_error hgw
    subst he
    simp only [ToolHandler.handleSendMessage, hgw]
    rfl
  | ok key =>
    rcases h with h | ⟨s, hc, hlen⟩
    · refine ⟨contentEmptyError, ?_, rfl⟩
      simp only [ToolHandler.handleSendMessage, hgw, h]
      rfl
    · have hs : s ≠ "" := by
        rintro rfl
        revert hlen
        decide
      cases hmk : mkClient key with
      | error e2 =>
        refine ⟨clientKeyError, ?_, rfl⟩
        have he2 := mkClient_error hmk
        subst he2
        simp only [ToolHandler.handleSendMessage, hgw, hc, hmk]
        simp [Json.falsy, Json.isStr, hs, ToolHandler.runHandler, M.throw]
      | ok client =>
        refine ⟨contentTooLongError s.utf8ByteSize, ?_, rfl⟩
        simp only [ToolHandler.handleSendMessage, hgw, hc, hmk, WeComClient.sendMarkdownV2]
        simp [Json.falsy, Json.isStr, hs, if_pos hlen, ToolHandler.runHandler, M.throw]

/-! ## Claim C3 -/

/-- Claim C3: `send_message` fails with an InvalidInput envelope and no
network call for empty/non-string content and for any content whose
UTF-8 byte length exceeds 4096; content of at most 4096 bytes (with a
resolvable credential) is forwarded to the `markdown_v2` send, issuing
exactly that one network call. -/
theorem C3_send_message_validation (dk : Option String) (env : Env) (args : Json) :
    (((jsField args "content").falsy || !(jsField args "content").isStr) = true →
      ∃ e, ToolHandler.handle dk env (Json.str "send_message") args =
        ([], Except.ok (ToolHandler.formatError e)) ∧ e.kind = ErrKind.invalidInput) ∧
    (∀ s, jsField args "content" = Json.str s → 4096 < s.utf8ByteSize →
      ∃ e, ToolHandler.handle dk env (Json.str "send_message") args =
        ([], Except.ok (ToolHandler.formatError e)) ∧ e.kind = ErrKind.invalidInput) ∧
    (∀ s k, jsField args "content" = Json.str s → s ≠ "" → s.utf8ByteSize ≤ 4096 →
      ToolHandler.getWebhookKey dk (jsField args "webhook_key") = Except.ok (Json.str k) →
      k ≠ "" →
      ToolHandler.handle dk env (Json.str "send_message") args =
        ToolHandler.runHandler (WeComClient.sendMessage k env "markdown_v2"
          (Json.obj [("content", Json.str s)])) ∧
      (ToolHandler.handle dk env (Json.str "send_message") args).1 =
        [NetCall.send k "markdown_v2" (Json.obj [("content", Json.str s)])]) := by
  have hh : ToolHandler.handle dk env (Json.str "send_message") args =
      ToolHandler.handleSendMessage dk env args := rfl
  refine ⟨fun h => ?_, fun s hc hlen => ?_, fun s k hc hs hlen hkey hk => ?_⟩
  · rw [hh]; exact handleSendMessage_invalid dk env args (Or.inl h)
  · rw [hh]; exact handleSendMessage_invalid dk env args (Or.inr ⟨s, hc, hlen⟩)
  · have hv := handleSendMessage_valid dk env args s k hc hs hlen hkey hk
    rw [hh, hv]
    exact ⟨rfl, by rw [runHandler_fst, sendMessage_trace]⟩

/-- Arguments with a content of 4097 `a` characters (4097 UTF-8 bytes). -/
def argsLong : Json :=
  Json.obj [("webhook_key", Json.str "K"),
    ("content", Json.str (String.mk (List.replicate 4097 'a')))]

/-- Claim C3 witness: absent content fails; content of exactly 4097
UTF-8 bytes fails with InvalidInput and an empty network trace; content
`"hello"` with credential `K` issues exactly the `markdown_v2` send. -/
theorem C3_witness :
    (∃ e, ToolHandler.handle none envTest (Json.str "send_message") (Json.obj []) =
      ([], Except.ok (ToolHandler.formatError e)) ∧ e.kind = ErrKind.invalidInput) ∧
    (∃ e, ToolHandler.handle none envTest (Json.str "send_message") argsLong =
      ([], Except.ok (ToolHandler.formatError e)) ∧ e.kind = ErrKind.invalidInput) ∧
    (ToolHandler.handle none envTest (Json.str "send_message")
        (Json.obj [("webhook_key", Json.str "K"), ("content", Json.str "hello")])).1 =
      [NetCall.send "K" "markdown_v2" (Json.obj [("content", Json.str "hello")])] := by
  refine ⟨(C3_send_message_validation none envTest (Json.obj [])).1 rfl,
    (C3_send_message_validation none envTest argsLong).2.1 (String.mk (List.replicate 4097 'a'))
      rfl (by rw [utf8_replicate]; decide),
    ((C3_send_message_validation none envTest
        (Json.obj [("webhook_key", Json.str "K"), ("content", Json.str "hello")])).2.2
      "hello" "K" rfl (by decide) (by decide) rfl (by decide)).2⟩

/-! ## Claim C8 -/

/-- The remote body of the round-trip scenario. -/
def remoteOkBody : Json := Json.obj [("errcode", Json.num 0), ("errmsg", Json.str "ok")]

/-- The dispatcher success payload wrapping `remoteOkBody`. -/
def sendSuccessData : Json :=
  Json.obj [("success", Json.bool true), ("message", Json.str "消息发送成功"),
    ("data", remoteOkBody)]

/-- Claim C8: when the remote answers `{errcode: 0, errmsg: "ok"}`, the
dispatcher produces a success envelope (no error flag) whose textual
content is the wrapped payload, and that payload contains the pair
`errcode: 0`. -/
theorem C8_remote_ok_roundtrip (dk : Option String) (env : Env) (args : Json) (s k : String)
    (hc : jsField args "content" = Json.str s) (hs : s ≠ "") (hlen : s.utf8ByteSize ≤ 4096)
    (hkey : ToolHandler.getWebhookKey dk (jsField args "webhook_key") = Except.ok (Json.str k))
    (hk : k ≠ "")
    (hsend : env.send k "markdown_v2" (Json.obj [("content", Json.str s)]) =
      HttpResp.ok remoteOkBody) :
    ToolHandler.handle dk env (Json.str "send_message") args =
      ([NetCall.send k "markdown_v2" (Json.obj [("content", Json.str s)])],
       Except.ok (ToolHandler.formatSuccess sendSuccessData)) ∧
    (ToolHandler.formatSuccess sendSuccessData).isError = false ∧
    (ToolHandler.formatSuccess sendSuccessData).content =
      [{ type := "text", text := sendSuccessData }] ∧
    Json.containsKV sendSuccessData "errcode" (Json.num 0) = true := by
  refine ⟨?_, rfl, rfl, rfl⟩
  have hh : ToolHandler.handle dk env (Json.str "send_message") args =
      ToolHandler.handleSendMessage dk env args := rfl
  rw [hh, handleSendMessage_valid dk env args s k hc hs hlen hkey hk]
  unfold WeComClient.sendMessage
  rw [hsend]
  rfl

/-- Claim C8 witness: the concrete round trip through `envTest` (whose
remote always answers `{errcode: 0, errmsg: "ok"}`). -/
theorem C8_witness :
    ToolHandler.handle none envTest (Json.str "send_message")
        (Json.obj [("webhook_key", Json.str "K"), ("content", Json.str "hello")]) =
      ([NetCall.send "K" "markdown_v2" (Json.obj [("content", Json.str "hello")])],
       Except.ok (ToolHandler.formatSuccess sendSuccessData)) ∧
    Json.containsKV sendSuccessData "errcode" (Json.num 0) = true :=
  ⟨(C8_remote_ok_roundtrip none envTest
      (Json.obj [("webhook_key", Json.str "K"), ("content", Json.str "hello")])
      "hello" "K" rfl (by decide) (by decide) rfl (by decide) rfl).1,
   (C8_remote_ok_roundtrip none envTest
      (Json.obj [("webhook_key", Json.str "K"), ("content", Json.str "hello")])
      "hello" "K" rfl (by decide) (by decide) rfl (by decide) rfl).2.2.2⟩

/-! ## Claim C4 -/

/-- Claim C4: `send_image` fails with an InvalidInput envelope (and no
network call) whenever both of `image_path`/`image_url` are supplied
(truthy) or neither is; when exactly one is supplied and a credential
resolves, it routes to the local-file (`sendImage`) or URL-fetch
(`sendImageFromUrl`) client variant respectively. -/
theorem C4_send_image_exactly_one (dk : Option String) (env : Env) (args : Json) :
    ((((jsField args "image_path").falsy && (jsField args "image_url").falsy) = true ∨
      (!(jsField args "image_path").falsy && !(jsField args "image_url").falsy) = true) →
      ∃ e, ToolHandler.handle dk env (Json.str "send_image") args =
        ([], Except.ok (ToolHandler.formatError e)) ∧ e.kind = ErrKind.invalidInput) ∧
    (∀ k, ToolHandler.getWebhookKey dk (jsField args "webhook_key") = Except.ok (Json.str k) →
      k ≠ "" →
      ((jsField args "image_path").falsy = false → (jsField args "image_url").falsy = true →
        ToolHandler.handle dk env (Json.str "send_image") args =
          ToolHandler.runHandler (WeComClient.sendImage k env (jsField args "image_path"))) ∧
      ((jsField args "image_path").falsy = true → (jsField args "image_url").falsy = false →
        ToolHandler.handle dk env (Json.str "send_image") args =
          ToolHandler.runHandler (WeComClient.sendImageFromUrl k env (jsField args "image_url")))) := by
  have hh : ToolHandler.handle dk env (Json.str "send_image") args =
      ToolHandler.handleSendImage dk env args := rfl
  constructor
  · intro h
    rw [hh]
    cases hgw : ToolHandler.getWebhookKey dk (jsField args "webhook_key") with
    | error e =>
      refine ⟨keyMissingError, ?_, rfl⟩
      have he := getWebhookKey_error hgw
      subst he
      simp only [ToolHandler.handleSendImage, hgw]
      rfl
    | ok key =>
      rcases h with h | h
      · refine ⟨imageArgMissingError, ?_, rfl⟩
        simp only [ToolHandler.handleSendImage, hgw, h]
        rfl
      · have h12 : (jsField args "image_path").falsy = false ∧
            (jsField args "image_url").falsy = false := by simpa using h
        refine ⟨imageArgBothError, ?_, rfl⟩
        simp [ToolHandler.handleSendImage, hgw, h12.1, h12.2, ToolHandler.runHandler, M.throw]
  · intro k hgw hk
    have hmk : mkClient (Json.str k) = Except.ok k := by simp [mkClient, hk]
    constructor
    · intro hip hiu
      rw [hh]
      simp [ToolHandler.handleSendImage, hgw, hip, hiu, hmk]
    · intro hip hiu
      rw [hh]
      simp [ToolHandler.handleSendImage, hgw, hip, hiu, hmk]

/-- Claim C4 witness: both supplied and neither supplied fail with
InvalidInput; exactly one supplied routes to the matching client
variant. -/
theorem C4_witness :
    (∃ e, ToolHandler.handle none envTest (Json.str "send_image")
        (Json.obj [("webhook_key", Json.str "K"), ("image_path", Json.str "pic.png"),
          ("image_url", Json.str "http://x/i.png")]) =
      ([], Except.ok (ToolHandler.formatError e)) ∧ e.kind = ErrKind.invalidInput) ∧
    (∃ e, ToolHandler.handle none envTest (Json.str "send_image")
        (Json.obj [("webhook_key", Json.str "K")]) =
      ([], Except.ok (ToolHandler.formatError e)) ∧ e.kind = ErrKind.invalidInput) ∧
    ToolHandler.handle none envTest (Json.str "send_image")
        (Json.obj [("webhook_key", Json.str "K"), ("image_path", Json.str "pic.png")]) =
      ToolHandler.runHandler (WeComClient.sendImage "K" envTest (Json.str "pic.png")) ∧
    ToolHandler.handle none envTest (Json.str "send_image")
        (Json.obj [("webhook_key", Json.str "K"), ("image_url", Json.str "http://x/i.png")]) =
      ToolHandler.runHandler (WeComClient.sendImageFromUrl "K" envTest
        (Json.str "http://x/i.png")) :=
  ⟨(C4_send_image_exactly_one none envTest
      (Json.obj [("webhook_key", Json.str "K"), ("image_path", Json.str "pic.png"),
        ("image_url", Json.str "http://x/i.png")])).1 (Or.inr rfl),
   (C4_send_image_exactly_one none envTest (Json.obj [("webhook_key", Json.str "K")])).1
      (Or.inl rfl),
   ((C4_send_image_exactly_one none envTest
      (Json.obj [("webhook_key", Json.str "K"), ("image_path", Json.str "pic.png")])).2
      "K" rfl (by decide)).1 rfl rfl,
   ((C4_send_image_exactly_one none envTest
      (Json.obj [("webhook_key", Json.str "K"), ("image_url", Json.str "http://x/i.png")])).2
      "K" rfl (by decide)).2 rfl rfl⟩

/-! ## Claim C2 -/

/-- Claim C2 (code bug, behavior theorem): `uploadMedia` does fail with
the NotFound error when the path does not resolve and with InvalidInput
when the file holds at most 5 bytes, both before any network call, and
a larger file with a 200 remote response carrying `errcode` 0 returns
the payload with the remote `media_id`.  But the kind-specific upper
limit the claim states (20 MB for `file`, 2 MB for `voice`) is never
enforced: the `FILE_SIZE_LIMITS[type]` lookup misses — lowercase
`file`/`voice` against the uppercase keys `FILE`/`VOICE` — yielding
`undefined`, and `fileSize > undefined` is always false, so the
over-limit throw is dead code.  Accordingly the success conjunct below
carries no upper size bound at all: instantiated at 20971521 bytes
(20 MB + 1) it exhibits the over-limit upload, network call included,
that the claim says must fail. -/
theorem C2_uploadMedia_limits (key p : String) (ty : Json) (env : Env)
    (hp : p ≠ "") (hty : ty = Json.str "file" ∨ ty = Json.str "voice") :
    jsIndex FILE_SIZE_LIMITS ty = Json.null ∧
    (env.fs p = none →
      WeComClient.uploadMedia key env (Json.str p) ty =
        ([], Except.error (fileMissingError p)) ∧
      (fileMissingError p).kind = ErrKind.notFound) ∧
    (∀ bytes, env.fs p = some bytes → bytes.length ≤ 5 →
      WeComClient.uploadMedia key env (Json.str p) ty =
        ([], Except.error fileTooSmallError) ∧
      fileTooSmallError.kind = ErrKind.invalidInput) ∧
    (∀ bytes body, env.fs p = some bytes → 5 < bytes.length →
      env.upload key ty bytes p = Except.ok body → jsField body "errcode" = Json.num 0 →
      WeComClient.uploadMedia key env (Json.str p) ty =
        ([NetCall.upload key ty bytes (basename p) (getMimeType p)],
         Except.ok (Json.obj [("success", Json.bool true),
           ("message", Json.str "文件上传成功"),
           ("media_id", jsField body "media_id"),
           ("type", jsField body "type"),
           ("created_at", jsField body "created_at")]))) := by
  have hmiss : jsIndex FILE_SIZE_LIMITS ty = Json.null := by
    rcases hty with rfl | rfl <;> rfl
  have hgt : ∀ n : Nat, jsGtNum n (jsIndex FILE_SIZE_LIMITS ty) = false := by
    intro n
    rw [hmiss]
    rfl
  have hpb : (p == "") = false := by simp [hp]
  have htyc : (!(ty.eqStr "file" || ty.eqStr "voice")) = false := by
    rcases hty with rfl | rfl <;> decide
  refine ⟨hmiss, fun hfs => ⟨?_, rfl⟩, fun bytes hfs hlen => ⟨?_, rfl⟩,
    fun bytes body hfs h5 hup hec => ?_⟩
  · simp [WeComClient.uploadMedia, hpb, htyc, hfs, M.throw]
  · simp [WeComClient.uploadMedia, hpb, htyc, hfs, if_pos hlen, M.throw]
  · have hecb : (jsField body "errcode").eqNum 0 = true := Json.eqNum_iff.mpr hec
    simp [WeComClient.uploadMedia, hpb, htyc, hfs, hup, hecb, hgt _,
      if_neg (show ¬ bytes.length ≤ 5 by omega)]

/-- `envTest` extended with an over-limit 20971521-byte (20 MB + 1)
file; only its length is ever inspected. -/
def envBig : Env :=
  { envTest with fs := fun p =>
      if p == "five.txt" then some (List.replicate 5 7)
      else if p == "six.txt" then some (List.replicate 6 7)
      else if p == "big.bin" then some (List.replicate 20971521 7)
      else none }

/-- The upload success payload `envBig`'s remote produces. -/
def uploadOkPayload : Json :=
  Json.obj [("success", Json.bool true), ("message", Json.str "文件上传成功"),
    ("media_id", Json.str "MEDIA-1"), ("type", Json.str "file"),
    ("created_at", Json.str "1700000000")]

/-- Claim C2 witness and failing input: the missing path and the
5-byte file fail as the claim says; the 6-byte file uploads and
returns `MEDIA-1`; and the 20971521-byte file — which the claim says
must fail with InvalidInput before any network call — also uploads,
with the network call issued. -/
theorem C2_witness :
    WeComClient.uploadMedia "k" envBig (Json.str "nope.txt") (Json.str "file") =
      ([], Except.error (fileMissingError "nope.txt")) ∧
    WeComClient.uploadMedia "k" envBig (Json.str "five.txt") (Json.str "file") =
      ([], Except.error fileTooSmallError) ∧
    WeComClient.uploadMedia "k" envBig (Json.str "six.txt") (Json.str "file") =
      ([NetCall.upload "k" (Json.str "file") (List.replicate 6 7) "six.txt" "text/plain"],
       Except.ok uploadOkPayload) ∧
    WeComClient.uploadMedia "k" envBig (Json.str "big.bin") (Json.str "file") =
      ([NetCall.upload "k" (Json.str "file") (List.replicate 20971521 7) "big.bin"
          "application/octet-stream"],
       Except.ok uploadOkPayload) := by
  refine ⟨((C2_uploadMedia_limits "k" "nope.txt" (Json.str "file") envBig (by decide)
      (Or.inl rfl)).2.1 rfl).1,
    ((C2_uploadMedia_limits "k" "five.txt" (Json.str "file") envBig (by decide)
      (Or.inl rfl)).2.2.1 (List.replicate 5 7) rfl (by rw [List.length_replicate])).1,
    ?_, ?_⟩
  · exact (C2_uploadMedia_limits "k" "six.txt" (Json.str "file") envBig (by decide)
      (Or.inl rfl)).2.2.2 (List.replicate 6 7)
      (Json.obj [("errcode", Json.num 0), ("errmsg", Json.str "ok"),
        ("media_id", Json.str "MEDIA-1"), ("type", Json.str "file"),
        ("created_at", Json.str "1700000000")])
      rfl (by rw [List.length_replicate]; decide) rfl rfl
  · exact (C2_uploadMedia_limits "k" "big.bin" (Json.str "file") envBig (by decide)
      (Or.inl rfl)).2.2.2 (List.replicate 20971521 7)
      (Json.obj [("errcode", Json.num 0), ("errmsg", Json.str "ok"),
        ("media_id", Json.str "MEDIA-1"), ("type", Json.str "file"),
        ("created_at", Json.str "1700000000")])
      rfl (by rw [List.length_replicate]; decide) rfl rfl
